import Mathlib

/-!
Shallow embedding of `src/cad_system.py` (a Flask + sqlite CAD dispatch server).

Modelling conventions:
* The sqlite database is a `DB` record of four tables, each a list of rows in
  insertion order.  Column names follow the `CREATE TABLE` statements.
* sqlite constraints are modelled in the `insert…` helpers: `INSERT` into a
  table raises `sqlite3.IntegrityError` when a `PRIMARY KEY`/`UNIQUE` column
  collides (`PyExc.integrityError`).  `PRAGMA foreign_keys` is never enabled by
  the source, so foreign keys are not enforced.
* Python `data['k']` on a missing key raises `KeyError` (`PyExc.keyError`);
  `data.get('k', d)` is `Option.getD`.  Request dicts are structures whose
  fields are `Option String` (`none` = key absent).
* Each HTTP / SocketIO handler becomes a function `DB → data → Gen → Res` where
  `Gen` supplies the nondeterministic environment (`uuid.uuid4()` strings,
  `datetime.now` date stamp, `CURRENT_TIMESTAMP`).  `Res` records the final
  database, the ordered trace of committed writes and broadcast emissions, and
  either the handler's reply or the uncaught Python exception (which Flask /
  SocketIO turn into a 500 / logged error without crashing the process).
* `emit(…, broadcast=True)` from a SocketIO handler and `socketio.emit(…)`
  from an HTTP handler both go to every currently connected client; they appear
  in the trace as `Step.notice`.  A plain `emit('error', …)` goes only to the
  requesting client and is modelled as the handler's reply (`Resp.pushError`).
-/

namespace CadSystem

/-- Row of the `units` table (`id` PRIMARY KEY, `unit_number` UNIQUE NOT NULL). -/
structure UnitRow where
  id : String
  unit_number : String
  unit_type : String
  status : String
  location : String
  assigned_call_id : Option String
  last_update : Nat
deriving Repr, DecidableEq

/-- Row of the `calls` table (`id` PRIMARY KEY, `call_number` UNIQUE NOT NULL). -/
structure CallRow where
  id : String
  call_number : String
  priority : String
  call_type : String
  location : String
  description : String
  status : String
  created_at : Nat
  updated_at : Nat
  assigned_unit_id : Option String
  reporter_name : String
  reporter_phone : String
deriving Repr, DecidableEq

/-- Row of the `bolos` table (`id` PRIMARY KEY). -/
structure BoloRow where
  id : String
  title : String
  description : String
  bolo_type : String
  priority : String
  status : String
  created_at : Nat
  expires_at : Option String
  created_by : String
deriving Repr, DecidableEq

/-- Row of the `notes` table (`id` PRIMARY KEY). -/
structure NoteRow where
  id : String
  call_id : Option String
  unit_id : Option String
  note_type : String
  content : String
  created_at : Nat
  created_by : String
deriving Repr, DecidableEq

/-- The sqlite database state (the `status_codes` table is static reference
data never touched by the mutation handlers and is omitted). -/
structure DB where
  units : List UnitRow
  calls : List CallRow
  bolos : List BoloRow
  notes : List NoteRow
deriving Repr, DecidableEq

/-- Python exceptions the handlers can raise without catching them. -/
inductive PyExc where
  | keyError (key : String)
  | integrityError
deriving Repr, DecidableEq

/-- Entity kinds, matching the `unit_update` / `call_update` / `bolo_update` /
`note_update` event families. -/
inductive EntityKind where
  | unit | call | bolo | note
deriving Repr, DecidableEq

/-- The `action` field of an event notice. -/
inductive Action where
  | created | updated | deleted
deriving Repr, DecidableEq

/-- A broadcast message sent to every connected client: either a lightweight
event notice (`…_update` with the affected id) or a full snapshot
(`units_data` / `calls_data` / `bolos_data` / `notes_data`). -/
inductive Notice where
  | event (kind : EntityKind) (action : Action) (id : String)
  | unitsData (rows : List UnitRow)
  | callsData (rows : List CallRow)
  | bolosData (rows : List BoloRow)
  | notesData (rows : List NoteRow)
deriving Repr, DecidableEq

/-- One step of a handler's observable behaviour, in program order:
a committed database write, or a broadcast emission. -/
inductive Step where
  | commit (db : DB)
  | notice (n : Notice)
deriving Repr, DecidableEq

/-- The `emit('error', …)` messages the SocketIO `add_unit` handler can send
back to the requesting client. -/
inductive ErrMsg where
  | unitFieldsRequired
  | unitNumberExists (number : String)
  | addUnitException
deriving Repr, DecidableEq

/-- A handler's direct reply to the requesting client. -/
inductive Resp where
  | created (id : String) (message : String)
  | createdCall (id : String) (call_number : String) (message : String)
  | message (message : String)
  | pushError (e : ErrMsg)
  | noReply
deriving Repr, DecidableEq

/-- Either the handler returned normally with a reply, or a Python exception
escaped the handler (Flask / SocketIO report it; the process survives). -/
inductive HandlerResult where
  | resp (r : Resp)
  | exc (e : PyExc)
deriving Repr, DecidableEq

/-- Result of running one handler: final database, trace, and outcome. -/
structure Res where
  db : DB
  trace : List Step
  result : HandlerResult
deriving Repr, DecidableEq

/-- Environment drawn by a handler run: the `uuid.uuid4()` strings it
generates, the `%Y%m%d` date stamp, and `CURRENT_TIMESTAMP`. -/
structure Gen where
  uuid1 : String
  uuid2 : String
  dateStr : String
  now : Nat
deriving Repr, DecidableEq

/-- Python `data['k']`: the value, or `KeyError` when the key is absent. -/
def getKey (v : Option String) (k : String) : Except PyExc String :=
  match v with
  | some s => Except.ok s
  | none => Except.error (PyExc.keyError k)

/-- Python truthiness test used by `if not data.get('k')`: absent or empty. -/
def falsy (v : Option String) : Bool :=
  match v with
  | none => true
  | some s => s == ""

/-- `INSERT INTO units …`: fails with `IntegrityError` when the `id` primary
key or the `UNIQUE unit_number` collides with an existing row. -/
def insertUnit (db : DB) (u : UnitRow) : Except PyExc DB :=
  if db.units.any (fun v => v.id == u.id || v.unit_number == u.unit_number) then
    Except.error PyExc.integrityError
  else
    Except.ok { db with units := db.units ++ [u] }

/-- `INSERT INTO calls …`: fails with `IntegrityError` when the `id` primary
key or the `UNIQUE call_number` collides with an existing row. -/
def insertCall (db : DB) (c : CallRow) : Except PyExc DB :=
  if db.calls.any (fun v => v.id == c.id || v.call_number == c.call_number) then
    Except.error PyExc.integrityError
  else
    Except.ok { db with calls := db.calls ++ [c] }

/-- `INSERT INTO bolos …`: only the `id` primary key is constrained. -/
def insertBolo (db : DB) (b : BoloRow) : Except PyExc DB :=
  if db.bolos.any (fun v => v.id == b.id) then
    Except.error PyExc.integrityError
  else
    Except.ok { db with bolos := db.bolos ++ [b] }

/-- `INSERT INTO notes …`: only the `id` primary key is constrained. -/
def insertNote (db : DB) (n : NoteRow) : Except PyExc DB :=
  if db.notes.any (fun v => v.id == n.id) then
    Except.error PyExc.integrityError
  else
    Except.ok { db with notes := db.notes ++ [n] }

/-- `SELECT * FROM units ORDER BY unit_number` (ascending). -/
def get_units (db : DB) : List UnitRow :=
  db.units.mergeSort (fun a b => decide (a.unit_number ≤ b.unit_number))

/-- `SELECT * FROM calls ORDER BY created_at DESC`. -/
def get_calls (db : DB) : List CallRow :=
  db.calls.mergeSort (fun a b => decide (b.created_at ≤ a.created_at))

/-- `SELECT * FROM bolos ORDER BY created_at DESC`. -/
def get_bolos (db : DB) : List BoloRow :=
  db.bolos.mergeSort (fun a b => decide (b.created_at ≤ a.created_at))

/-- `SELECT * FROM notes ORDER BY created_at DESC`. -/
def get_notes (db : DB) : List NoteRow :=
  db.notes.mergeSort (fun a b => decide (b.created_at ≤ a.created_at))

/-- Request body of `POST /api/units` (keys the handler reads). -/
structure UnitPostData where
  unit_number : Option String
  unit_type : Option String
  status : Option String
  location : Option String
deriving Repr, DecidableEq

/-- Request body of `PUT /api/units/<unit_id>` (keys the handler reads). -/
structure UnitPutData where
  status : Option String
  location : Option String
deriving Repr, DecidableEq

/-- Request body of `POST /api/calls` (keys the handler reads). -/
structure CallPostData where
  priority : Option String
  call_type : Option String
  location : Option String
  description : Option String
  status : Option String
  reporter_name : Option String
  reporter_phone : Option String
deriving Repr, DecidableEq

/-- Request body of `POST /api/bolos` (keys the handler reads). -/
structure BoloPostData where
  title : Option String
  description : Option String
  bolo_type : Option String
  priority : Option String
  status : Option String
  expires_at : Option String
  created_by : Option String
deriving Repr, DecidableEq

/-- Request body of `POST /api/notes` (keys the handler reads). -/
structure NotePostData where
  call_id : Option String
  unit_id : Option String
  note_type : Option String
  content : Option String
  created_by : Option String
deriving Repr, DecidableEq

/-- Payload of the SocketIO `add_unit` event (note the `number` / `type`
key names, different from the HTTP channel). -/
structure AddUnitData where
  number : Option String
  type : Option String
  status : Option String
  location : Option String
deriving Repr, DecidableEq

/-- Payload of the SocketIO `add_call` event (`type` instead of `call_type`). -/
structure AddCallData where
  priority : Option String
  type : Option String
  location : Option String
  description : Option String
  status : Option String
  reporter_name : Option String
  reporter_phone : Option String
deriving Repr, DecidableEq

/-- Payload of the SocketIO `add_note` event (`type` instead of `note_type`). -/
structure AddNoteData where
  call_id : Option String
  unit_id : Option String
  type : Option String
  content : Option String
  created_by : Option String
deriving Repr, DecidableEq

/-- Payload of the SocketIO `add_bolo` event (`type` instead of `bolo_type`). -/
structure AddBoloData where
  title : Option String
  description : Option String
  type : Option String
  priority : Option String
  status : Option String
  expires_at : Option String
  created_by : Option String
deriving Repr, DecidableEq

/-- Wrap an exception-throwing handler body: an uncaught exception leaves the
database as it was (every raise in the source happens before `conn.commit()`)
and produces an empty trace. -/
def runHandler (db : DB) (m : Except PyExc (DB × List Step × Resp)) : Res :=
  match m with
  | Except.error e => ⟨db, [], HandlerResult.exc e⟩
  | Except.ok (db2, tr, r) => ⟨db2, tr, HandlerResult.resp r⟩

/-- `POST /api/units` (`create_unit`, lines 153-170): inserts the unit with no
validation and no duplicate pre-check, then emits `unit_update`. -/
def create_unit (db : DB) (data : UnitPostData) (g : Gen) : Res :=
  runHandler db do
    let num ← getKey data.unit_number "unit_number"
    let ty ← getKey data.unit_type "unit_type"
    let u : UnitRow :=
      { id := g.uuid1, unit_number := num, unit_type := ty,
        status := data.status.getD "Available", location := data.location.getD "",
        assigned_call_id := none, last_update := g.now }
    let db2 ← insertUnit db u
    pure (db2,
      [Step.commit db2, Step.notice (Notice.event EntityKind.unit Action.created g.uuid1)],
      Resp.created g.uuid1 "Unit created successfully")

/-- `PUT /api/units/<unit_id>` (`update_unit`, lines 172-189): unconditionally
writes `status`, `location`, `last_update` on the matching row (a no-op when
the id is absent), then emits `unit_update` and reports success. -/
def update_unit (db : DB) (unit_id : String) (data : UnitPutData) (g : Gen) : Res :=
  runHandler db do
    let st ← getKey data.status "status"
    let loc := data.location.getD ""
    let db2 : DB :=
      { db with units := db.units.map (fun u =>
          if u.id == unit_id then
            { u with status := st, location := loc, last_update := g.now }
          else u) }
    pure (db2,
      [Step.commit db2, Step.notice (Notice.event EntityKind.unit Action.updated unit_id)],
      Resp.message "Unit updated successfully")

/-- The generated call number `CALL-<%Y%m%d>-<str(uuid4())[:4].upper()>`. -/
def upper4 (s : String) : String :=
  String.mk ((s.data.take 4).map Char.toUpper)

/-- Call number generated by both call-creation handlers. -/
def genCallNumber (g : Gen) : String :=
  "CALL-" ++ g.dateStr ++ "-" ++ upper4 g.uuid2

/-- `POST /api/calls` (`create_call`, lines 199-219). -/
def create_call (db : DB) (data : CallPostData) (g : Gen) : Res :=
  runHandler db do
    let pri ← getKey data.priority "priority"
    let ty ← getKey data.call_type "call_type"
    let loc ← getKey data.location "location"
    let c : CallRow :=
      { id := g.uuid1, call_number := genCallNumber g, priority := pri, call_type := ty,
        location := loc, description := data.description.getD "",
        status := data.status.getD "New", created_at := g.now, updated_at := g.now,
        assigned_unit_id := none, reporter_name := data.reporter_name.getD "",
        reporter_phone := data.reporter_phone.getD "" }
    let db2 ← insertCall db c
    pure (db2,
      [Step.commit db2, Step.notice (Notice.event EntityKind.call Action.created g.uuid1)],
      Resp.createdCall g.uuid1 (genCallNumber g) "Call created successfully")

/-- `DELETE /api/calls/<call_id>` (`delete_call`, lines 221-231): deletes the
matching row (a no-op when absent); nothing else is touched. -/
def delete_call (db : DB) (call_id : String) : Res :=
  let db2 : DB := { db with calls := db.calls.filter (fun c => !(c.id == call_id)) }
  ⟨db2,
    [Step.commit db2, Step.notice (Notice.event EntityKind.call Action.deleted call_id)],
    HandlerResult.resp (Resp.message "Call deleted successfully")⟩

/-- `POST /api/bolos` (`create_bolo`, lines 241-260). -/
def create_bolo (db : DB) (data : BoloPostData) (g : Gen) : Res :=
  runHandler db do
    let ti ← getKey data.title "title"
    let de ← getKey data.description "description"
    let ty ← getKey data.bolo_type "bolo_type"
    let b : BoloRow :=
      { id := g.uuid1, title := ti, description := de, bolo_type := ty,
        priority := data.priority.getD "Medium", status := data.status.getD "Active",
        created_at := g.now, expires_at := data.expires_at,
        created_by := data.created_by.getD "Dispatcher" }
    let db2 ← insertBolo db b
    pure (db2,
      [Step.commit db2, Step.notice (Notice.event EntityKind.bolo Action.created g.uuid1)],
      Resp.created g.uuid1 "BOLO created successfully")

/-- `DELETE /api/bolos/<bolo_id>` (`delete_bolo`, lines 262-272). -/
def delete_bolo (db : DB) (bolo_id : String) : Res :=
  let db2 : DB := { db with bolos := db.bolos.filter (fun b => !(b.id == bolo_id)) }
  ⟨db2,
    [Step.commit db2, Step.notice (Notice.event EntityKind.bolo Action.deleted bolo_id)],
    HandlerResult.resp (Resp.message "BOLO deleted successfully")⟩

/-- `POST /api/notes` (`create_note`, lines 282-300). -/
def create_note (db : DB) (data : NotePostData) (g : Gen) : Res :=
  runHandler db do
    let ty ← getKey data.note_type "note_type"
    let co ← getKey data.content "content"
    let n : NoteRow :=
      { id := g.uuid1, call_id := data.call_id, unit_id := data.unit_id,
        note_type := ty, content := co, created_at := g.now,
        created_by := data.created_by.getD "Dispatcher" }
    let db2 ← insertNote db n
    pure (db2,
      [Step.commit db2, Step.notice (Notice.event EntityKind.note Action.created g.uuid1)],
      Resp.created g.uuid1 "Note created successfully")

/-- `DELETE /api/notes/<note_id>` (`delete_note`, lines 302-312). -/
def delete_note (db : DB) (note_id : String) : Res :=
  let db2 : DB := { db with notes := db.notes.filter (fun n => !(n.id == note_id)) }
  ⟨db2,
    [Step.commit db2, Step.notice (Notice.event EntityKind.note Action.deleted note_id)],
    HandlerResult.resp (Resp.message "Note deleted successfully")⟩

/-- SocketIO `add_unit` (`handle_add_unit`, lines 364-414): validates presence
of `number` / `type` (Python truthiness, so `""` is also rejected), pre-checks
`unit_number` uniqueness, inserts, then broadcasts `units_data` and
`unit_update`; any exception inside the `try` is caught and reported as an
`error` emission to the requester. -/
def handle_add_unit (db : DB) (data : AddUnitData) (g : Gen) : Res :=
  if falsy data.number || falsy data.type then
    ⟨db, [], HandlerResult.resp (Resp.pushError ErrMsg.unitFieldsRequired)⟩
  else
    let num := data.number.getD ""
    if db.units.any (fun v => v.unit_number == num) then
      ⟨db, [], HandlerResult.resp (Resp.pushError (ErrMsg.unitNumberExists num))⟩
    else
      let u : UnitRow :=
        { id := g.uuid1, unit_number := num, unit_type := data.type.getD "",
          status := data.status.getD "Available", location := data.location.getD "",
          assigned_call_id := none, last_update := g.now }
      match insertUnit db u with
      | Except.error _ =>
        ⟨db, [], HandlerResult.resp (Resp.pushError ErrMsg.addUnitException)⟩
      | Except.ok db2 =>
        ⟨db2,
          [Step.commit db2, Step.notice (Notice.unitsData (get_units db2)),
            Step.notice (Notice.event EntityKind.unit Action.created g.uuid1)],
          HandlerResult.resp Resp.noReply⟩

/-- SocketIO `add_call` (`handle_add_call`, lines 416-436): no validation and
no `try`; missing keys raise `KeyError` uncaught.  On success broadcasts
`calls_data` and `call_update`. -/
def handle_add_call (db : DB) (data : AddCallData) (g : Gen) : Res :=
  runHandler db do
    let pri ← getKey data.priority "priority"
    let ty ← getKey data.type "type"
    let loc ← getKey data.location "location"
    let c : CallRow :=
      { id := g.uuid1, call_number := genCallNumber g, priority := pri, call_type := ty,
        location := loc, description := data.description.getD "",
        status := data.status.getD "New", created_at := g.now, updated_at := g.now,
        assigned_unit_id := none, reporter_name := data.reporter_name.getD "",
        reporter_phone := data.reporter_phone.getD "" }
    let db2 ← insertCall db c
    pure (db2,
      [Step.commit db2, Step.notice (Notice.callsData (get_calls db2)),
        Step.notice (Notice.event EntityKind.call Action.created g.uuid1)],
      Resp.noReply)

/-- SocketIO `add_note` (`handle_add_note`, lines 438-456). -/
def handle_add_note (db : DB) (data : AddNoteData) (g : Gen) : Res :=
  runHandler db do
    let ty ← getKey data.type "type"
    let co ← getKey data.content "content"
    let n : NoteRow :=
      { id := g.uuid1, call_id := data.call_id, unit_id := data.unit_id,
        note_type := ty, content := co, created_at := g.now,
        created_by := data.created_by.getD "Dispatcher" }
    let db2 ← insertNote db n
    pure (db2,
      [Step.commit db2, Step.notice (Notice.notesData (get_notes db2)),
        Step.notice (Notice.event EntityKind.note Action.created g.uuid1)],
      Resp.noReply)

/-- SocketIO `add_bolo` (`handle_add_bolo`, lines 458-477). -/
def handle_add_bolo (db : DB) (data : AddBoloData) (g : Gen) : Res :=
  runHandler db do
    let ti ← getKey data.title "title"
    let de ← getKey data.description "description"
    let ty ← getKey data.type "type"
    let b : BoloRow :=
      { id := g.uuid1, title := ti, description := de, bolo_type := ty,
        priority := data.priority.getD "Medium", status := data.status.getD "Active",
        created_at := g.now, expires_at := data.expires_at,
        created_by := data.created_by.getD "Dispatcher" }
    let db2 ← insertBolo db b
    pure (db2,
      [Step.commit db2, Step.notice (Notice.bolosData (get_bolos db2)),
        Step.notice (Notice.event EntityKind.bolo Action.created g.uuid1)],
      Resp.noReply)

/-- Broadcast delivery: a notice emitted with `broadcast=True` (or via
`socketio.emit`) is handed to every currently connected observer. -/
def deliverAll (observers : List String) (n : Notice) : List (String × Notice) :=
  observers.map (fun o => (o, n))

/-- Channel-independent content of a create-Unit mutation request, used to
compare the two inbound channels on one input.  The request/response channel
reads it under the keys `unit_number` / `unit_type`, the push channel under
`number` / `type`. -/
structure UnitInput where
  number : String
  type : String
  status : Option String
  location : Option String
deriving Repr, DecidableEq

/-- Render a `UnitInput` as the `POST /api/units` JSON body. -/
def toUnitPostData (i : UnitInput) : UnitPostData :=
  ⟨some i.number, some i.type, i.status, i.location⟩

/-- Render a `UnitInput` as the SocketIO `add_unit` payload. -/
def toAddUnitData (i : UnitInput) : AddUnitData :=
  ⟨some i.number, some i.type, i.status, i.location⟩

/-- Fields of a Unit row that a `PUT /api/units/<id>` must not touch. -/
def preservesFrame (u2 u : UnitRow) : Prop :=
  u2.id = u.id ∧ u2.unit_number = u.unit_number ∧ u2.unit_type = u.unit_type ∧
    u2.assigned_call_id = u.assigned_call_id

/-- Sample generator environment for concrete runs. -/
def g0 : Gen := ⟨"id-0001", "ab12cd34ef56", "20261012", 100⟩

/-- Sample unit `M-12`, unassigned. -/
def unitM12 : UnitRow := ⟨"u1", "M-12", "Medic", "Available", "HQ", none, 5⟩

/-- Sample unit `M-12` assigned to call `c1`. -/
def unitAssigned : UnitRow := ⟨"u1", "M-12", "Medic", "Dispatched", "HQ", some "c1", 5⟩

/-- Sample unit in `OutOfService`. -/
def unitOOS : UnitRow := ⟨"u2", "E-7", "Engine", "OutOfService", "", none, 5⟩

/-- Sample call `c1`, assigned to unit `u1`. -/
def callC1 : CallRow :=
  ⟨"c1", "CALL-20261012-AAAA", "High", "MVA", "5th&Main", "", "Dispatched", 10, 10,
    some "u1", "", ""⟩

/-- The empty database. -/
def dbEmpty : DB := ⟨[], [], [], []⟩

/-- Database holding the single unit `M-12`. -/
def dbM12 : DB := ⟨[unitM12], [], [], []⟩

/-- Database where unit `u1` and call `c1` reference each other. -/
def dbAssigned : DB := ⟨[unitAssigned], [callC1], [], []⟩

/-- Database holding one `OutOfService` unit. -/
def dbOOS : DB := ⟨[unitOOS], [], [], []⟩

/-- A `POST /api/calls` body with `priority` and `call_type` but no
`location`. -/
def callDataNoLoc : CallPostData := ⟨some "High", some "MVA", none, none, none, none, none⟩

/-- A create-Unit input whose unit number is the empty string. -/
def emptyNumberInput : UnitInput := ⟨"", "Medic", none, none⟩

/-- A complete `POST /api/calls` body. -/
def fullCallData : CallPostData :=
  ⟨some "High", some "MVA", some "5th&Main", none, none, none, none⟩

/-- A well-formed create-Unit input. -/
def m12Input : UnitInput := ⟨"M-12", "Medic", none, none⟩

/-! ## General-purpose lemmas -/

theorem pairwise_mergeSort_rel {α : Type} (r : α → α → Prop) [DecidableRel r]
    (htrans : ∀ a b c, r a b → r b c → r a c)
    (htot : ∀ a b, r a b ∨ r b a) (l : List α) :
    (l.mergeSort (fun a b => decide (r a b))).Pairwise r := by
  have h := List.sorted_mergeSort
    (fun a b c hab hbc =>
      decide_eq_true (htrans a b c (of_decide_eq_true hab) (of_decide_eq_true hbc)))
    (fun a b => by
      rcases htot a b with h | h
      · simp [decide_eq_true h]
      · simp [decide_eq_true h]) l
  exact h.imp (fun hab => of_decide_eq_true hab)

theorem except_bind_ok {α β : Type} {e : Type} {a : Except e α} {f : α → Except e β} {v : β}
    (h : a >>= f = Except.ok v) : ∃ w, a = Except.ok w ∧ f w = Except.ok v := by
  cases a with
  | error err => simp [Bind.bind, Except.bind, Pure.pure, Except.pure] at h
  | ok w => exact ⟨w, rfl, by simpa [Bind.bind, Except.bind, Pure.pure, Except.pure] using h⟩

theorem runHandler_result_resp {db : DB} {m : Except PyExc (DB × List Step × Resp)} {r : Resp}
    (h : (runHandler db m).result = HandlerResult.resp r) :
    ∃ x, m = Except.ok x ∧ runHandler db m = ⟨x.1, x.2.1, HandlerResult.resp x.2.2⟩ := by
  cases m with
  | error e => simp [runHandler] at h
  | ok x => exact ⟨x, rfl, rfl⟩

theorem runHandler_result_exc {db : DB} {m : Except PyExc (DB × List Step × Resp)} {e : PyExc}
    (h : (runHandler db m).result = HandlerResult.exc e) :
    runHandler db m = ⟨db, [], HandlerResult.exc e⟩ := by
  cases m with
  | error e2 =>
    have : e2 = e := by simpa [runHandler] using h
    subst this
    rfl
  | ok x => simp [runHandler] at h

theorem forall2_map_left {α : Type} (f : α → α) (p : α → α → Prop)
    (h : ∀ a, p (f a) a) (l : List α) : List.Forall₂ p (l.map f) l := by
  induction l with
  | nil => exact List.Forall₂.nil
  | cons a t ih => exact List.Forall₂.cons (h a) ih

/-! ## Claims -/

/-- C7: the list operation returns records in a deterministic order — Units
sorted by unit number ascending, and Calls, BOLOs and Notes sorted by creation
time descending (each listing is a permutation of the stored rows arranged by
the stated key). -/
theorem C7_listing_order :
    ∀ db : DB,
      (get_units db).Perm db.units ∧
      (get_units db).Pairwise (fun a b => a.unit_number ≤ b.unit_number) ∧
      (get_calls db).Perm db.calls ∧
      (get_calls db).Pairwise (fun a b => b.created_at ≤ a.created_at) ∧
      (get_bolos db).Perm db.bolos ∧
      (get_bolos db).Pairwise (fun a b => b.created_at ≤ a.created_at) ∧
      (get_notes db).Perm db.notes ∧
      (get_notes db).Pairwise (fun a b => b.created_at ≤ a.created_at) := by
  intro db
  refine ⟨List.mergeSort_perm _ _, ?_, List.mergeSort_perm _ _, ?_,
    List.mergeSort_perm _ _, ?_, List.mergeSort_perm _ _, ?_⟩
  · exact pairwise_mergeSort_rel (fun a b : UnitRow => a.unit_number ≤ b.unit_number)
      (fun a b c hab hbc => le_trans hab hbc) (fun a b => le_total _ _) _
  · exact pairwise_mergeSort_rel (fun a b : CallRow => b.created_at ≤ a.created_at)
      (fun a b c hab hbc => le_trans hbc hab) (fun a b => (le_total _ _).symm) _
  · exact pairwise_mergeSort_rel (fun a b : BoloRow => b.created_at ≤ a.created_at)
      (fun a b c hab hbc => le_trans hbc hab) (fun a b => (le_total _ _).symm) _
  · exact pairwise_mergeSort_rel (fun a b : NoteRow => b.created_at ≤ a.created_at)
      (fun a b c hab hbc => le_trans hbc hab) (fun a b => (le_total _ _).symm) _

/-- C3 counterexample: in the state where unit `u1` references call `c1`,
`DELETE /api/calls/c1` removes the call but leaves the unit's
`assigned_call_id` still pointing at the deleted call — it does not become
unset, so the claimed cascade does not exist. -/
theorem C3_counterexample :
    (delete_call dbAssigned "c1").db.calls = [] ∧
    (delete_call dbAssigned "c1").db.units = [unitAssigned] ∧
    unitAssigned.assigned_call_id = some "c1" := by
  decide

/-- C3 amended: deleting a Call removes only rows of the `calls` table; the
`units` table (and every other table) is untouched, so a Unit referencing the
deleted Call keeps its now-dangling `assigned_call_id`. -/
theorem C3_amended :
    ∀ (db : DB) (cid : String),
      (delete_call db cid).db.units = db.units ∧
      (delete_call db cid).db.bolos = db.bolos ∧
      (delete_call db cid).db.notes = db.notes ∧
      (∀ c ∈ (delete_call db cid).db.calls, c.id ≠ cid) ∧
      (∀ c ∈ db.calls, c.id ≠ cid → c ∈ (delete_call db cid).db.calls) := by
  intro db cid
  refine ⟨rfl, rfl, rfl, ?_, ?_⟩
  · intro c hc
    simp only [delete_call, List.mem_filter, Bool.not_eq_eq_eq_not, Bool.not_true,
      beq_eq_false_iff_ne, ne_eq] at hc
    exact hc.2
  · intro c hc hne
    simp only [delete_call, List.mem_filter, Bool.not_eq_eq_eq_not, Bool.not_true,
      beq_eq_false_iff_ne, ne_eq]
    exact ⟨hc, hne⟩

/-- C3 witness: the cascade-free behaviour at the concrete state. -/
theorem C3_witness :
    (delete_call dbAssigned "c1").db.units = dbAssigned.units :=
  (C3_amended dbAssigned "c1").1

/-- C4 counterexample: a Unit in `OutOfService` is moved directly to `OnScene`
by `PUT /api/units/u2`; the update is accepted, reports success, and mutates
the store — no state-machine check rejects it. -/
theorem C4_counterexample :
    (update_unit dbOOS "u2" ⟨some "OnScene", none⟩ g0).result =
      HandlerResult.resp (Resp.message "Unit updated successfully") ∧
    (update_unit dbOOS "u2" ⟨some "OnScene", none⟩ g0).db.units =
      [{ unitOOS with status := "OnScene", location := "", last_update := g0.now }] := by
  decide

/-- C4 amended: `update_unit` consults no status state machine — whenever the
request carries a `status` value, the handler reports success and writes that
status onto the targeted Unit whatever its current status (in particular
`OutOfService → OnScene` is accepted), and no `InvalidTransitionError` exists
anywhere in the code (there is also no Call-update route at all). -/
theorem C4_amended :
    ∀ (db : DB) (uid : String) (data : UnitPutData) (g : Gen) (s : String),
      data.status = some s →
      (update_unit db uid data g).result =
        HandlerResult.resp (Resp.message "Unit updated successfully") ∧
      ∀ u ∈ db.units, u.id = uid →
        { u with status := s, location := data.location.getD "", last_update := g.now } ∈
          (update_unit db uid data g).db.units := by
  intro db uid data g s hs
  constructor
  · simp [update_unit, runHandler, getKey, hs, Bind.bind, Except.bind, Pure.pure, Except.pure]
  · intro u hu hid
    simp only [update_unit, runHandler, getKey, hs, Bind.bind, Except.bind, Pure.pure, Except.pure]
    exact List.mem_map.mpr ⟨u, hu, by simp [hid]⟩

/-- C4 witness: the amended behaviour at the concrete `OutOfService` state. -/
theorem C4_witness :
    (update_unit dbOOS "u2" ⟨some "OnScene", none⟩ g0).result =
      HandlerResult.resp (Resp.message "Unit updated successfully") :=
  (C4_amended dbOOS "u2" ⟨some "OnScene", none⟩ g0 "OnScene" rfl).1

/-- C5 counterexample: on the empty store, updating unit `ghost` and deleting
call `ghost` both report the ordinary success message and return no
`NotFoundError` of any kind. -/
theorem C5_counterexample :
    (update_unit dbEmpty "ghost" ⟨some "Available", none⟩ g0).result =
      HandlerResult.resp (Resp.message "Unit updated successfully") ∧
    (update_unit dbEmpty "ghost" ⟨some "Available", none⟩ g0).db = dbEmpty ∧
    (delete_call dbEmpty "ghost").result =
      HandlerResult.resp (Resp.message "Call deleted successfully") ∧
    (delete_call dbEmpty "ghost").db = dbEmpty := by
  decide

/-- C5 amended: an update or delete aimed at an id that is not in the store is
a silent no-op — it changes no record, yet reports exactly the same success
message as a real update/delete; no `NotFoundError` is ever produced. -/
theorem C5_amended :
    (∀ (db : DB) (uid : String) (data : UnitPutData) (g : Gen) (s : String),
        data.status = some s →
        (∀ u ∈ db.units, u.id ≠ uid) →
        (update_unit db uid data g).result =
          HandlerResult.resp (Resp.message "Unit updated successfully") ∧
        (update_unit db uid data g).db = db) ∧
    (∀ (db : DB) (cid : String),
        (∀ c ∈ db.calls, c.id ≠ cid) →
        (delete_call db cid).result =
          HandlerResult.resp (Resp.message "Call deleted successfully") ∧
        (delete_call db cid).db = db) := by
  constructor
  · intro db uid data g s hs hmiss
    have hmap : db.units.map (fun u =>
        if u.id == uid then
          { u with status := s, location := data.location.getD "", last_update := g.now }
        else u) = db.units := by
      conv_rhs => rw [← List.map_id db.units]
      refine List.map_congr_left ?_
      intro u hu
      simp [beq_eq_false_iff_ne.mpr (hmiss u hu)]
    constructor
    · simp [update_unit, runHandler, getKey, hs, Bind.bind, Except.bind, Pure.pure, Except.pure]
    · simp only [update_unit, runHandler, getKey, hs, Bind.bind, Except.bind,
        Pure.pure, Except.pure, hmap]
  · intro db cid hmiss
    have hfil : db.calls.filter (fun c => !(c.id == cid)) = db.calls := by
      refine List.filter_eq_self.mpr ?_
      intro c hc
      simp [beq_eq_false_iff_ne.mpr (hmiss c hc)]
    exact ⟨rfl, by simp only [delete_call, hfil]⟩

/-- C5 witness: the silent no-op at the concrete empty store. -/
theorem C5_witness :
    (update_unit dbEmpty "ghost" ⟨some "Available", none⟩ g0).db = dbEmpty ∧
    (delete_call dbEmpty "ghost").db = dbEmpty :=
  ⟨(C5_amended.1 dbEmpty "ghost" ⟨some "Available", none⟩ g0 "Available" rfl
      (by simp [dbEmpty])).2,
    (C5_amended.2 dbEmpty "ghost" (by simp [dbEmpty])).2⟩

/-- C10: a Unit-update request writes only the `status`, `location` and
`last_update` fields of the targeted Unit; its `id`, `unit_number`,
`unit_type` and `assigned_call_id` are unchanged, non-targeted Units are
unchanged entirely, and every record of every other entity kind is unchanged
(when the request lacks a `status` value the whole store is unchanged). -/
theorem C10_update_unit_frame :
    ∀ (db : DB) (uid : String) (data : UnitPutData) (g : Gen),
      (update_unit db uid data g).db.calls = db.calls ∧
      (update_unit db uid data g).db.bolos = db.bolos ∧
      (update_unit db uid data g).db.notes = db.notes ∧
      List.Forall₂ preservesFrame (update_unit db uid data g).db.units db.units ∧
      (∀ u ∈ db.units, u.id ≠ uid → u ∈ (update_unit db uid data g).db.units) := by
  intro db uid data g
  cases hs : data.status with
  | none =>
    have hdb : (update_unit db uid data g).db = db := by
      simp [update_unit, runHandler, getKey, hs, Bind.bind, Except.bind]
    rw [hdb]
    exact ⟨rfl, rfl, rfl,
      List.forall₂_same.mpr (fun u _ => ⟨rfl, rfl, rfl, rfl⟩),
      fun u hu _ => hu⟩
  | some s =>
    have hdb : (update_unit db uid data g).db =
        { db with units := db.units.map (fun u =>
            if u.id == uid then
              { u with status := s, location := data.location.getD "", last_update := g.now }
            else u) } := by
      simp only [update_unit, runHandler, getKey, hs, Bind.bind, Except.bind,
        Pure.pure, Except.pure]
    rw [hdb]
    refine ⟨rfl, rfl, rfl, ?_, ?_⟩
    · refine forall2_map_left _ preservesFrame ?_ db.units
      intro u
      by_cases h : u.id == uid
      · simp only [h, if_pos]
        exact ⟨rfl, rfl, rfl, rfl⟩
      · simp only [h, if_neg]
        exact ⟨rfl, rfl, rfl, rfl⟩
    · intro u hu hne
      exact List.mem_map.mpr ⟨u, hu, by simp [beq_eq_false_iff_ne.mpr hne]⟩

/-- C10 witness: the frame condition at a concrete state and request. -/
theorem C10_witness :
    (update_unit dbOOS "zzz" ⟨some "Available", none⟩ g0).db.calls = dbOOS.calls ∧
    unitOOS ∈ (update_unit dbOOS "zzz" ⟨some "Available", none⟩ g0).db.units :=
  ⟨(C10_update_unit_frame dbOOS "zzz" ⟨some "Available", none⟩ g0).1,
    (C10_update_unit_frame dbOOS "zzz" ⟨some "Available", none⟩ g0).2.2.2.2 unitOOS
      (by decide) (by decide)⟩

/-- C6 counterexample: a create-Call request missing the required `location`
field is not rejected with a `ValidationError`; the handler raises an uncaught
`KeyError` (surfaced by Flask as a 500), with nothing persisted. -/
theorem C6_counterexample :
    create_call dbEmpty callDataNoLoc g0 =
      ⟨dbEmpty, [], HandlerResult.exc (PyExc.keyError "location")⟩ := by
  decide

/-- C6 amended: only the push-channel `add_unit` validates its input — a
missing or empty `number`/`type` yields a handled error message to the
requester with nothing persisted.  Every other create path surfaces a missing
required field as an uncaught `KeyError` (Flask/SocketIO report it; the
process survives).  In all cases no record is persisted and the store is
unchanged. -/
theorem C6_amended :
    (∀ (db : DB) (data : AddUnitData) (g : Gen),
        falsy data.number = true ∨ falsy data.type = true →
        handle_add_unit db data g =
          ⟨db, [], HandlerResult.resp (Resp.pushError ErrMsg.unitFieldsRequired)⟩) ∧
    (∀ (db : DB) (data : UnitPostData) (g : Gen),
        data.unit_number = none →
        create_unit db data g = ⟨db, [], HandlerResult.exc (PyExc.keyError "unit_number")⟩) ∧
    (∀ (db : DB) (data : UnitPostData) (g : Gen) (n : String),
        data.unit_number = some n → data.unit_type = none →
        create_unit db data g = ⟨db, [], HandlerResult.exc (PyExc.keyError "unit_type")⟩) ∧
    (∀ (db : DB) (data : CallPostData) (g : Gen) (p t : String),
        data.priority = some p → data.call_type = some t → data.location = none →
        create_call db data g = ⟨db, [], HandlerResult.exc (PyExc.keyError "location")⟩) ∧
    (∀ (db : DB) (data : AddCallData) (g : Gen) (p t : String),
        data.priority = some p → data.type = some t → data.location = none →
        handle_add_call db data g = ⟨db, [], HandlerResult.exc (PyExc.keyError "location")⟩) := by
  refine ⟨?_, ?_, ?_, ?_, ?_⟩
  · intro db data g h
    have hcond : (falsy data.number || falsy data.type) = true := by
      rcases h with h | h <;> simp [h]
    simp [handle_add_unit, hcond]
  · intro db data g h
    simp [create_unit, runHandler, getKey, h, Bind.bind, Except.bind]
  · intro db data g n hn ht
    simp [create_unit, runHandler, getKey, hn, ht, Bind.bind, Except.bind]
  · intro db data g p t hp ht hl
    simp [create_call, runHandler, getKey, hp, ht, hl, Bind.bind, Except.bind]
  · intro db data g p t hp ht hl
    simp [handle_add_call, runHandler, getKey, hp, ht, hl, Bind.bind, Except.bind]

/-- C6 witness: both rejection shapes at concrete inputs — the push channel's
handled validation error and the HTTP channel's uncaught `KeyError`. -/
theorem C6_witness :
    handle_add_unit dbEmpty ⟨none, some "Medic", none, none⟩ g0 =
      ⟨dbEmpty, [], HandlerResult.resp (Resp.pushError ErrMsg.unitFieldsRequired)⟩ ∧
    create_call dbEmpty callDataNoLoc g0 =
      ⟨dbEmpty, [], HandlerResult.exc (PyExc.keyError "location")⟩ :=
  ⟨C6_amended.1 dbEmpty ⟨none, some "Medic", none, none⟩ g0 (Or.inl rfl),
    C6_amended.2.2.2.1 dbEmpty callDataNoLoc g0 "High" "MVA" rfl rfl rfl⟩

/-- C1 counterexample: with unit number `M-12` already stored, the
request/response-channel create does not fail with a ConflictError reply — the
duplicate `INSERT` raises the store's uniqueness violation as an uncaught
`IntegrityError` (an HTTP 500), though nothing is persisted. -/
theorem C1_counterexample :
    create_unit dbM12 ⟨some "M-12", some "Fire", none, none⟩ g0 =
      ⟨dbM12, [], HandlerResult.exc PyExc.integrityError⟩ := by
  decide

/-- C1 amended: among create-Unit requests sharing one unit number at most one
succeeds and a duplicate persists nothing, but the failure shape differs per
channel: the push channel replies with a handled "already exists" conflict
message, while the request/response channel raises the uniqueness violation as
an uncaught `IntegrityError` instead of a ConflictError reply.  A create
succeeds exactly when the unit number (and the generated id) is fresh, and a
successful create makes the number present, so every later same-number create
on either channel fails. -/
theorem C1_amended :
    (∀ (db : DB) (data : UnitPostData) (g : Gen) (n t : String),
        data.unit_number = some n → data.unit_type = some t →
        (∃ u ∈ db.units, u.unit_number = n) →
        create_unit db data g = ⟨db, [], HandlerResult.exc PyExc.integrityError⟩) ∧
    (∀ (db : DB) (data : AddUnitData) (g : Gen) (n : String),
        data.number = some n → n ≠ "" → falsy data.type = false →
        (∃ u ∈ db.units, u.unit_number = n) →
        handle_add_unit db data g =
          ⟨db, [], HandlerResult.resp (Resp.pushError (ErrMsg.unitNumberExists n))⟩) ∧
    (∀ (db : DB) (data : UnitPostData) (g : Gen) (n t : String),
        data.unit_number = some n → data.unit_type = some t →
        (∀ u ∈ db.units, u.unit_number ≠ n ∧ u.id ≠ g.uuid1) →
        (create_unit db data g).result =
          HandlerResult.resp (Resp.created g.uuid1 "Unit created successfully") ∧
        ∃ u ∈ (create_unit db data g).db.units, u.unit_number = n) := by
  refine ⟨?_, ?_, ?_⟩
  · intro db data g n t hn ht hdup
    obtain ⟨u, hu, hnum⟩ := hdup
    have hany : db.units.any
        (fun v => v.id == g.uuid1 || v.unit_number == n) = true :=
      List.any_eq_true.mpr ⟨u, hu, by simp [hnum]⟩
    simp [create_unit, runHandler, getKey, insertUnit, hn, ht, hany,
      Bind.bind, Except.bind]
  · intro db data g n hn hne hty hdup
    obtain ⟨u, hu, hnum⟩ := hdup
    have hany : db.units.any (fun v => v.unit_number == n) = true :=
      List.any_eq_true.mpr ⟨u, hu, by simp [hnum]⟩
    have hfn : falsy (some n) = false := by
      simp only [falsy]
      exact beq_eq_false_iff_ne.mpr hne
    simp [handle_add_unit, hn, hfn, hty, hany]
  · intro db data g n t hn ht hfresh
    have hany : db.units.any
        (fun v => v.id == g.uuid1 || v.unit_number == n) = false := by
      rw [List.any_eq_false]
      intro u hu
      have := hfresh u hu
      simp [beq_eq_false_iff_ne.mpr this.2, beq_eq_false_iff_ne.mpr this.1]
    constructor
    · simp [create_unit, runHandler, getKey, insertUnit, hn, ht, hany,
        Bind.bind, Except.bind, Pure.pure, Except.pure]
    · refine ⟨⟨g.uuid1, n, t, data.status.getD "Available", data.location.getD "",
        none, g.now⟩, ?_, rfl⟩
      simp [create_unit, runHandler, getKey, insertUnit, hn, ht, hany,
        Bind.bind, Except.bind, Pure.pure, Except.pure]

/-- C1 witness: both channels' duplicate-create behaviour at a concrete state
holding unit `M-12`, plus a successful fresh create. -/
theorem C1_witness :
    create_unit dbM12 ⟨some "M-12", some "Fire", none, none⟩ g0 =
      ⟨dbM12, [], HandlerResult.exc PyExc.integrityError⟩ ∧
    handle_add_unit dbM12 ⟨some "M-12", some "Fire", none, none⟩ g0 =
      ⟨dbM12, [], HandlerResult.resp (Resp.pushError (ErrMsg.unitNumberExists "M-12"))⟩ ∧
    (create_unit dbEmpty ⟨some "M-12", some "Fire", none, none⟩ g0).result =
      HandlerResult.resp (Resp.created g0.uuid1 "Unit created successfully") :=
  ⟨C1_amended.1 dbM12 ⟨some "M-12", some "Fire", none, none⟩ g0 "M-12" "Fire" rfl rfl
      ⟨unitM12, by decide, rfl⟩,
    C1_amended.2.1 dbM12 ⟨some "M-12", some "Fire", none, none⟩ g0 "M-12" rfl
      (by decide) rfl ⟨unitM12, by decide, rfl⟩,
    (C1_amended.2.2 dbEmpty ⟨some "M-12", some "Fire", none, none⟩ g0 "M-12" "Fire" rfl rfl
      (by simp [dbEmpty])).1⟩

/-- C2 counterexample: the two channels are not behaviourally equivalent on
the same mutation input — a create-Unit input with an empty unit number is
persisted by the request/response channel but rejected by the push channel
(different accept/reject outcome and different resulting store). -/
theorem C2_counterexample :
    (create_unit dbEmpty (toUnitPostData emptyNumberInput) g0).result =
      HandlerResult.resp (Resp.created "id-0001" "Unit created successfully") ∧
    (create_unit dbEmpty (toUnitPostData emptyNumberInput) g0).db.units =
      [⟨"id-0001", "", "Medic", "Available", "", none, 100⟩] ∧
    handle_add_unit dbEmpty (toAddUnitData emptyNumberInput) g0 =
      ⟨dbEmpty, [], HandlerResult.resp (Resp.pushError ErrMsg.unitFieldsRequired)⟩ := by
  decide

/-- C2 amended: the two channels do not reduce to one internal mutation path
and their validation differs (the push channel rejects absent/empty
`number`/`type` and pre-checks uniqueness with handled errors; the
request/response channel accepts empty strings and surfaces missing keys and
duplicates as uncaught exceptions).  They do agree on the success path: for an
input with non-empty number and type whose number and generated id are fresh,
both channels accept and produce identical resulting stores. -/
theorem C2_amended :
    ∀ (db : DB) (i : UnitInput) (g : Gen),
      i.number ≠ "" → i.type ≠ "" →
      (∀ u ∈ db.units, u.unit_number ≠ i.number ∧ u.id ≠ g.uuid1) →
      (create_unit db (toUnitPostData i) g).db = (handle_add_unit db (toAddUnitData i) g).db ∧
      (create_unit db (toUnitPostData i) g).result =
        HandlerResult.resp (Resp.created g.uuid1 "Unit created successfully") ∧
      (handle_add_unit db (toAddUnitData i) g).result = HandlerResult.resp Resp.noReply := by
  intro db i g hnum hty hfresh
  have hany2 : db.units.any
      (fun v => v.id == g.uuid1 || v.unit_number == i.number) = false := by
    rw [List.any_eq_false]
    intro u hu
    have := hfresh u hu
    simp [beq_eq_false_iff_ne.mpr this.2, beq_eq_false_iff_ne.mpr this.1]
  have hany1 : db.units.any (fun v => v.unit_number == i.number) = false := by
    rw [List.any_eq_false]
    intro u hu
    simp [beq_eq_false_iff_ne.mpr (hfresh u hu).1]
  have hfn : falsy (some i.number) = false := by
    simp only [falsy]
    exact beq_eq_false_iff_ne.mpr hnum
  have hft : falsy (some i.type) = false := by
    simp only [falsy]
    exact beq_eq_false_iff_ne.mpr hty
  refine ⟨?_, ?_, ?_⟩
  · simp [create_unit, handle_add_unit, runHandler, getKey, insertUnit,
      toUnitPostData, toAddUnitData, hfn, hft, hany1, hany2,
      Bind.bind, Except.bind, Pure.pure, Except.pure]
  · simp [create_unit, runHandler, getKey, insertUnit, toUnitPostData, hany2,
      Bind.bind, Except.bind, Pure.pure, Except.pure]
  · simp [handle_add_unit, toAddUnitData, hfn, hft, hany1, hany2, insertUnit]

/-- C2 witness: channel agreement on a concrete well-formed input. -/
theorem C2_witness :
    (create_unit dbEmpty (toUnitPostData m12Input) g0).db =
      (handle_add_unit dbEmpty (toAddUnitData m12Input) g0).db :=
  (C2_amended dbEmpty m12Input g0 (by decide) (by decide) (by simp [dbEmpty])).1

/-- C8: every successful create, update or delete, on every entity kind and
both channels, broadcasts an event notice identifying the entity kind, the
action and the affected id, and the notice appears in the trace strictly after
the commit of the already-mutated store (push-channel creates additionally
broadcast the post-state snapshot); a rejected mutation (uncaught exception or
handled push-channel error) emits no notice and leaves the store unchanged;
and a broadcast notice is delivered to every currently connected observer. -/
theorem C8_broadcast :
    (∀ (db : DB) (data : UnitPostData) (g : Gen) (r : Resp),
        (create_unit db data g).result = HandlerResult.resp r →
        (create_unit db data g).trace =
          [Step.commit (create_unit db data g).db,
            Step.notice (Notice.event EntityKind.unit Action.created g.uuid1)]) ∧
    (∀ (db : DB) (data : UnitPostData) (g : Gen) (e : PyExc),
        (create_unit db data g).result = HandlerResult.exc e →
        (create_unit db data g).trace = [] ∧ (create_unit db data g).db = db) ∧
    (∀ (db : DB) (uid : String) (data : UnitPutData) (g : Gen) (r : Resp),
        (update_unit db uid data g).result = HandlerResult.resp r →
        (update_unit db uid data g).trace =
          [Step.commit (update_unit db uid data g).db,
            Step.notice (Notice.event EntityKind.unit Action.updated uid)]) ∧
    (∀ (db : DB) (uid : String) (data : UnitPutData) (g : Gen) (e : PyExc),
        (update_unit db uid data g).result = HandlerResult.exc e →
        (update_unit db uid data g).trace = [] ∧ (update_unit db uid data g).db = db) ∧
    (∀ (db : DB) (data : CallPostData) (g : Gen) (r : Resp),
        (create_call db data g).result = HandlerResult.resp r →
        (create_call db data g).trace =
          [Step.commit (create_call db data g).db,
            Step.notice (Notice.event EntityKind.call Action.created g.uuid1)]) ∧
    (∀ (db : DB) (data : CallPostData) (g : Gen) (e : PyExc),
        (create_call db data g).result = HandlerResult.exc e →
        (create_call db data g).trace = [] ∧ (create_call db data g).db = db) ∧
    (∀ (db : DB) (cid : String),
        (delete_call db cid).trace =
          [Step.commit (delete_call db cid).db,
            Step.notice (Notice.event EntityKind.call Action.deleted cid)]) ∧
    (∀ (db : DB) (data : BoloPostData) (g : Gen) (r : Resp),
        (create_bolo db data g).result = HandlerResult.resp r →
        (create_bolo db data g).trace =
          [Step.commit (create_bolo db data g).db,
            Step.notice (Notice.event EntityKind.bolo Action.created g.uuid1)]) ∧
    (∀ (db : DB) (data : BoloPostData) (g : Gen) (e : PyExc),
        (create_bolo db data g).result = HandlerResult.exc e →
        (create_bolo db data g).trace = [] ∧ (create_bolo db data g).db = db) ∧
    (∀ (db : DB) (bid : String),
        (delete_bolo db bid).trace =
          [Step.commit (delete_bolo db bid).db,
            Step.notice (Notice.event EntityKind.bolo Action.deleted bid)]) ∧
    (∀ (db : DB) (data : NotePostData) (g : Gen) (r : Resp),
        (create_note db data g).result = HandlerResult.resp r →
        (create_note db data g).trace =
          [Step.commit (create_note db data g).db,
            Step.notice (Notice.event EntityKind.note Action.created g.uuid1)]) ∧
    (∀ (db : DB) (data : NotePostData) (g : Gen) (e : PyExc),
        (create_note db data g).result = HandlerResult.exc e →
        (create_note db data g).trace = [] ∧ (create_note db data g).db = db) ∧
    (∀ (db : DB) (nid : String),
        (delete_note db nid).trace =
          [Step.commit (delete_note db nid).db,
            Step.notice (Notice.event EntityKind.note Action.deleted nid)]) ∧
    (∀ (db : DB) (data : AddUnitData) (g : Gen),
        (handle_add_unit db data g).result = HandlerResult.resp Resp.noReply →
        (handle_add_unit db data g).trace =
          [Step.commit (handle_add_unit db data g).db,
            Step.notice (Notice.unitsData (get_units (handle_add_unit db data g).db)),
            Step.notice (Notice.event EntityKind.unit Action.created g.uuid1)]) ∧
    (∀ (db : DB) (data : AddUnitData) (g : Gen) (m : ErrMsg),
        (handle_add_unit db data g).result = HandlerResult.resp (Resp.pushError m) →
        (handle_add_unit db data g).trace = [] ∧ (handle_add_unit db data g).db = db) ∧
    (∀ (db : DB) (data : AddCallData) (g : Gen),
        (handle_add_call db data g).result = HandlerResult.resp Resp.noReply →
        (handle_add_call db data g).trace =
          [Step.commit (handle_add_call db data g).db,
            Step.notice (Notice.callsData (get_calls (handle_add_call db data g).db)),
            Step.notice (Notice.event EntityKind.call Action.created g.uuid1)]) ∧
    (∀ (db : DB) (data : AddCallData) (g : Gen) (e : PyExc),
        (handle_add_call db data g).result = HandlerResult.exc e →
        (handle_add_call db data g).trace = [] ∧ (handle_add_call db data g).db = db) ∧
    (∀ (db : DB) (data : AddNoteData) (g : Gen),
        (handle_add_note db data g).result = HandlerResult.resp Resp.noReply →
        (handle_add_note db data g).trace =
          [Step.commit (handle_add_note db data g).db,
            Step.notice (Notice.notesData (get_notes (handle_add_note db data g).db)),
            Step.notice (Notice.event EntityKind.note Action.created g.uuid1)]) ∧
    (∀ (db : DB) (data : AddNoteData) (g : Gen) (e : PyExc),
        (handle_add_note db data g).result = HandlerResult.exc e →
        (handle_add_note db data g).trace = [] ∧ (handle_add_note db data g).db = db) ∧
    (∀ (db : DB) (data : AddBoloData) (g : Gen),
        (handle_add_bolo db data g).result = HandlerResult.resp Resp.noReply →
        (handle_add_bolo db data g).trace =
          [Step.commit (handle_add_bolo db data g).db,
            Step.notice (Notice.bolosData (get_bolos (handle_add_bolo db data g).db)),
            Step.notice (Notice.event EntityKind.bolo Action.created g.uuid1)]) ∧
    (∀ (db : DB) (data : AddBoloData) (g : Gen) (e : PyExc),
        (handle_add_bolo db data g).result = HandlerResult.exc e →
        (handle_add_bolo db data g).trace = [] ∧ (handle_add_bolo db data g).db = db) ∧
    (∀ (obs : List String) (o : String) (n : Notice),
        o ∈ obs → (o, n) ∈ deliverAll obs n) := by
  refine ⟨?_, ?_, ?_, ?_, ?_, ?_, ?_, ?_, ?_, ?_, ?_, ?_, ?_, ?_, ?_, ?_, ?_, ?_, ?_, ?_, ?_, ?_⟩
  · intro db data g r h
    unfold create_unit at h ⊢
    obtain ⟨x, hm, heq⟩ := runHandler_result_resp h
    obtain ⟨a1, h1, hm⟩ := except_bind_ok hm
    obtain ⟨a2, h2, hm⟩ := except_bind_ok hm
    obtain ⟨db2, h3, hm⟩ := except_bind_ok hm
    have h4 := Except.ok.inj hm
    subst h4
    rw [heq]
  · intro db data g e h
    unfold create_unit at h ⊢
    rw [runHandler_result_exc h]
    exact ⟨rfl, rfl⟩
  · intro db uid data g r h
    unfold update_unit at h ⊢
    obtain ⟨x, hm, heq⟩ := runHandler_result_resp h
    obtain ⟨a1, h1, hm⟩ := except_bind_ok hm
    have h4 := Except.ok.inj hm
    subst h4
    rw [heq]
  · intro db uid data g e h
    unfold update_unit at h ⊢
    rw [runHandler_result_exc h]
    exact ⟨rfl, rfl⟩
  · intro db data g r h
    unfold create_call at h ⊢
    obtain ⟨x, hm, heq⟩ := runHandler_result_resp h
    obtain ⟨a1, h1, hm⟩ := except_bind_ok hm
    obtain ⟨a2, h2, hm⟩ := except_bind_ok hm
    obtain ⟨a3, h3, hm⟩ := except_bind_ok hm
    obtain ⟨db2, h5, hm⟩ := except_bind_ok hm
    have h4 := Except.ok.inj hm
    subst h4
    rw [heq]
  · intro db data g e h
    unfold create_call at h ⊢
    rw [runHandler_result_exc h]
    exact ⟨rfl, rfl⟩
  · intro db cid
    rfl
  · intro db data g r h
    unfold create_bolo at h ⊢
    obtain ⟨x, hm, heq⟩ := runHandler_result_resp h
    obtain ⟨a1, h1, hm⟩ := except_bind_ok hm
    obtain ⟨a2, h2, hm⟩ := except_bind_ok hm
    obtain ⟨a3, h3, hm⟩ := except_bind_ok hm
    obtain ⟨db2, h5, hm⟩ := except_bind_ok hm
    have h4 := Except.ok.inj hm
    subst h4
    rw [heq]
  · intro db data g e h
    unfold create_bolo at h ⊢
    rw [runHandler_result_exc h]
    exact ⟨rfl, rfl⟩
  · intro db bid
    rfl
  · intro db data g r h
    unfold create_note at h ⊢
    obtain ⟨x, hm, heq⟩ := runHandler_result_resp h
    obtain ⟨a1, h1, hm⟩ := except_bind_ok hm
    obtain ⟨a2, h2, hm⟩ := except_bind_ok hm
    obtain ⟨db2, h5, hm⟩ := except_bind_ok hm
    have h4 := Except.ok.inj hm
    subst h4
    rw [heq]
  · intro db data g e h
    unfold create_note at h ⊢
    rw [runHandler_result_exc h]
    exact ⟨rfl, rfl⟩
  · intro db nid
    rfl
  · intro db data g h
    unfold handle_add_unit at h ⊢
    by_cases h1 : (falsy data.number || falsy data.type) = true
    · rw [if_pos h1] at h
      simp at h
    · rw [if_neg h1] at h ⊢
      by_cases h2 : (db.units.any fun v => v.unit_number == data.number.getD "") = true
      · rw [if_pos h2] at h
        simp at h
      · rw [if_neg h2] at h ⊢
        dsimp only at h ⊢
        split at h
        · simp at h
        · rfl
  · intro db data g m h
    unfold handle_add_unit at h ⊢
    by_cases h1 : (falsy data.number || falsy data.type) = true
    · rw [if_pos h1]
      exact ⟨rfl, rfl⟩
    · rw [if_neg h1] at h ⊢
      by_cases h2 : (db.units.any fun v => v.unit_number == data.number.getD "") = true
      · rw [if_pos h2]
        exact ⟨rfl, rfl⟩
      · rw [if_neg h2] at h ⊢
        dsimp only at h ⊢
        split at h
        · exact ⟨rfl, rfl⟩
        · simp at h
  · intro db data g h
    unfold handle_add_call at h ⊢
    obtain ⟨x, hm, heq⟩ := runHandler_result_resp h
    obtain ⟨a1, h1, hm⟩ := except_bind_ok hm
    obtain ⟨a2, h2, hm⟩ := except_bind_ok hm
    obtain ⟨a3, h3, hm⟩ := except_bind_ok hm
    obtain ⟨db2, h5, hm⟩ := except_bind_ok hm
    have h4 := Except.ok.inj hm
    subst h4
    rw [heq]
  · intro db data g e h
    unfold handle_add_call at h ⊢
    rw [runHandler_result_exc h]
    exact ⟨rfl, rfl⟩
  · intro db data g h
    unfold handle_add_note at h ⊢
    obtain ⟨x, hm, heq⟩ := runHandler_result_resp h
    obtain ⟨a1, h1, hm⟩ := except_bind_ok hm
    obtain ⟨a2, h2, hm⟩ := except_bind_ok hm
    obtain ⟨db2, h5, hm⟩ := except_bind_ok hm
    have h4 := Except.ok.inj hm
    subst h4
    rw [heq]
  · intro db data g e h
    unfold handle_add_note at h ⊢
    rw [runHandler_result_exc h]
    exact ⟨rfl, rfl⟩
  · intro db data g h
    unfold handle_add_bolo at h ⊢
    obtain ⟨x, hm, heq⟩ := runHandler_result_resp h
    obtain ⟨a1, h1, hm⟩ := except_bind_ok hm
    obtain ⟨a2, h2, hm⟩ := except_bind_ok hm
    obtain ⟨a3, h3, hm⟩ := except_bind_ok hm
    obtain ⟨db2, h5, hm⟩ := except_bind_ok hm
    have h4 := Except.ok.inj hm
    subst h4
    rw [heq]
  · intro db data g e h
    unfold handle_add_bolo at h ⊢
    rw [runHandler_result_exc h]
    exact ⟨rfl, rfl⟩
  · intro obs o n ho
    exact List.mem_map.mpr ⟨o, ho, rfl⟩

/-- C8 witness: a successful create broadcasts its notice after the commit of
the mutated store, and a rejected create broadcasts nothing, at concrete
inputs. -/
theorem C8_witness :
    (create_unit dbEmpty (toUnitPostData m12Input) g0).trace =
      [Step.commit (create_unit dbEmpty (toUnitPostData m12Input) g0).db,
        Step.notice (Notice.event EntityKind.unit Action.created g0.uuid1)] ∧
    (create_unit dbM12 (toUnitPostData m12Input) g0).trace = [] :=
  ⟨C8_broadcast.1 dbEmpty (toUnitPostData m12Input) g0
      (Resp.created "id-0001" "Unit created successfully") (by decide),
    (C8_broadcast.2.1 dbM12 (toUnitPostData m12Input) g0 PyExc.integrityError (by decide)).1⟩

theorem insertCall_nodup {db : DB} {c : CallRow} {db2 : DB}
    (h : insertCall db c = Except.ok db2)
    (hnd : (db.calls.map CallRow.call_number).Nodup) :
    (db2.calls.map CallRow.call_number).Nodup := by
  unfold insertCall at h
  split at h
  · simp at h
  · rename_i hguard
    simp only [Bool.not_eq_true, List.any_eq_false] at hguard
    obtain rfl := (Except.ok.inj h).symm
    have hnotin : c.call_number ∉ db.calls.map CallRow.call_number := by
      intro hmem
      obtain ⟨v, hv, hveq⟩ := List.mem_map.mp hmem
      exact absurd (hguard v hv) (by simp [hveq])
    show ((db.calls ++ [c]).map CallRow.call_number).Nodup
    rw [List.map_append]
    exact List.Nodup.append hnd (List.nodup_singleton _)
      (List.disjoint_singleton.mpr hnotin)

/-- C9: every Call created by either channel receives, at creation time, a
call number of the form `CALL-<date>-<4-char-suffix>` (the date stamp followed
by the first four characters of a fresh uuid, uppercased — four characters
whenever the uuid string has at least four), and the `UNIQUE call_number`
constraint keeps stored call numbers pairwise distinct across creates and
deletes, so a call number is never reused for two distinct stored Calls. -/
theorem C9_call_number :
    (∀ s : String, 4 ≤ s.length → (upper4 s).length = 4) ∧
    (∀ g : Gen, genCallNumber g = "CALL-" ++ g.dateStr ++ "-" ++ upper4 g.uuid2) ∧
    (∀ (db : DB) (data : CallPostData) (g : Gen) (r : Resp),
        (create_call db data g).result = HandlerResult.resp r →
        r = Resp.createdCall g.uuid1 (genCallNumber g) "Call created successfully" ∧
        ∃ c ∈ (create_call db data g).db.calls, c.call_number = genCallNumber g) ∧
    (∀ (db : DB) (data : AddCallData) (g : Gen),
        (handle_add_call db data g).result = HandlerResult.resp Resp.noReply →
        ∃ c ∈ (handle_add_call db data g).db.calls, c.call_number = genCallNumber g) ∧
    (∀ (db : DB) (data : CallPostData) (g : Gen),
        (db.calls.map CallRow.call_number).Nodup →
        ((create_call db data g).db.calls.map CallRow.call_number).Nodup) ∧
    (∀ (db : DB) (data : AddCallData) (g : Gen),
        (db.calls.map CallRow.call_number).Nodup →
        ((handle_add_call db data g).db.calls.map CallRow.call_number).Nodup) ∧
    (∀ (db : DB) (cid : String),
        (db.calls.map CallRow.call_number).Nodup →
        ((delete_call db cid).db.calls.map CallRow.call_number).Nodup) := by
  refine ⟨?_, ?_, ?_, ?_, ?_, ?_, ?_⟩
  · intro s hs
    have hlen : s.length = s.data.length := rfl
    show ((s.data.take 4).map Char.toUpper).length = 4
    rw [List.length_map, List.length_take]
    rw [hlen] at hs
    omega
  · intro g
    rfl
  · intro db data g r h
    unfold create_call at h ⊢
    obtain ⟨x, hm, heq⟩ := runHandler_result_resp h
    obtain ⟨a1, h1, hm⟩ := except_bind_ok hm
    obtain ⟨a2, h2, hm⟩ := except_bind_ok hm
    obtain ⟨a3, h3, hm⟩ := except_bind_ok hm
    obtain ⟨db2, hins, hm⟩ := except_bind_ok hm
    have h4 := Except.ok.inj hm
    subst h4
    rw [heq] at h
    constructor
    · exact (HandlerResult.resp.inj h).symm
    · unfold insertCall at hins
      split at hins
      · simp at hins
      · obtain rfl := (Except.ok.inj hins).symm
        rw [heq]
        exact ⟨_, List.mem_append_right _ (List.mem_singleton_self _), rfl⟩
  · intro db data g h
    unfold handle_add_call at h ⊢
    obtain ⟨x, hm, heq⟩ := runHandler_result_resp h
    obtain ⟨a1, h1, hm⟩ := except_bind_ok hm
    obtain ⟨a2, h2, hm⟩ := except_bind_ok hm
    obtain ⟨a3, h3, hm⟩ := except_bind_ok hm
    obtain ⟨db2, hins, hm⟩ := except_bind_ok hm
    have h4 := Except.ok.inj hm
    subst h4
    unfold insertCall at hins
    split at hins
    · simp at hins
    · obtain rfl := (Except.ok.inj hins).symm
      rw [heq]
      exact ⟨_, List.mem_append_right _ (List.mem_singleton_self _), rfl⟩
  · intro db data g hnd
    rcases hp : data.priority with _ | p
    · simpa [create_call, runHandler, getKey, hp, Bind.bind, Except.bind] using hnd
    rcases hct : data.call_type with _ | ct
    · simpa [create_call, runHandler, getKey, hp, hct, Bind.bind, Except.bind] using hnd
    rcases hl : data.location with _ | loc
    · simpa [create_call, runHandler, getKey, hp, hct, hl, Bind.bind, Except.bind] using hnd
    cases hins : insertCall db
        ⟨g.uuid1, genCallNumber g, p, ct, loc, data.description.getD "",
          data.status.getD "New", g.now, g.now, none, data.reporter_name.getD "",
          data.reporter_phone.getD ""⟩ with
    | error e =>
      simpa [create_call, runHandler, getKey, hp, hct, hl, hins,
        Bind.bind, Except.bind] using hnd
    | ok db2 =>
      have h2 := insertCall_nodup hins hnd
      simpa [create_call, runHandler, getKey, hp, hct, hl, hins,
        Bind.bind, Except.bind, Pure.pure, Except.pure] using h2
  · intro db data g hnd
    rcases hp : data.priority with _ | p
    · simpa [handle_add_call, runHandler, getKey, hp, Bind.bind, Except.bind] using hnd
    rcases hct : data.type with _ | ct
    · simpa [handle_add_call, runHandler, getKey, hp, hct, Bind.bind, Except.bind] using hnd
    rcases hl : data.location with _ | loc
    · simpa [handle_add_call, runHandler, getKey, hp, hct, hl, Bind.bind, Except.bind] using hnd
    cases hins : insertCall db
        ⟨g.uuid1, genCallNumber g, p, ct, loc, data.description.getD "",
          data.status.getD "New", g.now, g.now, none, data.reporter_name.getD "",
          data.reporter_phone.getD ""⟩ with
    | error e =>
      simpa [handle_add_call, runHandler, getKey, hp, hct, hl, hins,
        Bind.bind, Except.bind] using hnd
    | ok db2 =>
      have h2 := insertCall_nodup hins hnd
      simpa [handle_add_call, runHandler, getKey, hp, hct, hl, hins,
        Bind.bind, Except.bind, Pure.pure, Except.pure] using h2
  · intro db cid hnd
    have hsub : ((delete_call db cid).db.calls.map CallRow.call_number).Sublist
        (db.calls.map CallRow.call_number) :=
      List.Sublist.map _ (List.filter_sublist _)
    exact List.Nodup.sublist hsub hnd

/-- C9 witness: the 4-character suffix, a concrete successful create carrying
the generated number, and preservation of distinctness at concrete inputs. -/
theorem C9_witness :
    (upper4 "ab12cd34ef56").length = 4 ∧
    (∃ c ∈ (create_call dbEmpty fullCallData g0).db.calls,
      c.call_number = genCallNumber g0) ∧
    ((create_call dbEmpty fullCallData g0).db.calls.map CallRow.call_number).Nodup :=
  ⟨C9_call_number.1 "ab12cd34ef56" (by decide),
    (C9_call_number.2.2.1 dbEmpty fullCallData g0
      (Resp.createdCall g0.uuid1 (genCallNumber g0) "Call created successfully")
      (by decide)).2,
    C9_call_number.2.2.2.2.1 dbEmpty fullCallData g0 (by simp [dbEmpty])⟩

end CadSystem
